import Mathlib

/- Shallow embedding of the sonar-ice-detect repository
   (MicronSonar.py, MicronEnsemble.py, MicronTimeSeries.py).

   Modelling conventions:
   - Python floats are modelled as rationals; every arithmetic step of the
     source is exact rational arithmetic in this scale model.
   - Python None and float nan are both modelled as the none case of Option;
     the numpy data array of an ensemble is a List (Option Rat), since the
     source stores nan (from None arguments and degenerate peak results)
     inside the array.
   - Raw csv tokens are modelled as already-lexed rationals (the repository
     reads tokens with int()/float(); lexical failures of those calls are not
     the subject of any claim). The date_time token is modelled as the
     resulting numeric timestamp, and the (year, month, day) tuple is passed
     separately, as in the source.
   - np.cos composed with the degree-to-radian conversion is abstracted as an
     explicit functional argument cosd, since the cosine of the transcendental
     argument is not a rational-arithmetic step of the model; every claim
     below is insensitive to the concrete values of cosd.
   - A Python exception (ValueError, IndexError) is modelled as the none case
     of an Option result. -/

/-! ## MicronSonar.py: the fixed table schema (class MicronSonar) -/

/-- MicronSonar._header_vars (MicronSonar.py lines 34-50). -/
def micronSonarHeaderVars : List String :=
  ["line_header", "date_time", "node", "status", "hdctrl", "range_scale",
   "gain", "slope", "ad_low", "ad_span", "left_lim", "right_lim", "steps",
   "bearing", "dbytes"]

/-- MicronSonar._derived_vars (MicronSonar.py lines 54-74). -/
def micronSonarDerivedVars : List String :=
  ["year", "month", "day", "sonar_depth", "sonar_altitude", "bearing_bias",
   "bearing_ref_world", "incidence_angle", "bin_size", "max_intensity",
   "max_intensity_bin", "max_intensity_norm", "peak_start_bin", "peak_start",
   "peak_end_bin", "peak_end", "peak_width_bin", "peak_width",
   "vertical_range"]

/-- MicronSonar._ice_vars (MicronSonar.py lines 81-95). -/
def micronSonarIceVars : List String :=
  ["class_ice_category", "class_ice_presence", "class_ice_percent",
   "class_ice_thickness", "class_ice_slope", "class_ice_roughness",
   "label_ice_category", "label_ice_presence", "label_ice_percent",
   "label_ice_thickness", "label_ice_slope", "label_ice_roughness",
   "label_saltwater_flag"]

/-- MicronSonar._intensity_len = 500 (MicronSonar.py line 101). -/
def micronSonarIntensityLen : ℕ := 500

/-- MicronSonar._intensity_vars (MicronSonar.py lines 104-105). -/
def micronSonarIntensityVars : List String :=
  (List.range micronSonarIntensityLen).map (fun i => "bin_" ++ toString i)

/-- MicronSonar._label_list (MicronSonar.py lines 107-110): the column list
of the time-series table. -/
def micronSonarLabelList : List String :=
  micronSonarHeaderVars ++ micronSonarDerivedVars ++ micronSonarIceVars ++
    micronSonarIntensityVars

/-! ## MicronEnsemble.py: the per-record schema (MicronEnsemble.__init__) -/

/-- MicronEnsemble._header_vars (MicronEnsemble.py lines 57-73); the same
fifteen names as the MicronSonar list, duplicated in the source. -/
def micronEnsembleHeaderVars : List String :=
  ["line_header", "date_time", "node", "status", "hdctrl", "range_scale",
   "gain", "slope", "ad_low", "ad_span", "left_lim", "right_lim", "steps",
   "bearing", "dbytes"]

/-- MicronEnsemble._derived_vars (MicronEnsemble.py lines 77-97). Unlike the
MicronSonar list, it contains intensity_index and no vertical_range. -/
def micronEnsembleDerivedVars : List String :=
  ["year", "month", "day", "sonar_depth", "sonar_altitude", "bearing_bias",
   "bearing_ref_world", "incidence_angle", "bin_size", "intensity_index",
   "max_intensity", "max_intensity_bin", "max_intensity_norm",
   "peak_start_bin", "peak_start", "peak_end_bin", "peak_end",
   "peak_width_bin", "peak_width"]

/-- MicronEnsemble._intensity_vars (MicronEnsemble.py lines 106-107), sized
by the per-record intensity_len = int(csv_row[index of dbytes]). -/
def micronEnsembleIntensityVars (n : ℕ) : List String :=
  (List.range n).map (fun i => "bin_" ++ toString i)

/-- MicronEnsemble._label_list (MicronEnsemble.py lines 109-111). -/
def micronEnsembleLabelList (n : ℕ) : List String :=
  micronEnsembleHeaderVars ++ micronEnsembleDerivedVars ++
    micronEnsembleIntensityVars n

/-- MicronEnsemble.ensemble_size = header_len + derived_len + intensity_len
(MicronEnsemble.py lines 103-105). -/
def micronEnsembleSize (n : ℕ) : ℕ :=
  micronEnsembleHeaderVars.length + micronEnsembleDerivedVars.length + n

/-- A decoded ensemble record: the per-record intensity length (= dbytes)
and the numpy data array (none models a nan slot). -/
structure MicronEnsemble where
  intensityLen : ℕ
  dataArray : List (Option ℚ)

/-- MicronEnsemble.get_data (MicronEnsemble.py lines 157-162); the outer
Option models the ValueError raised on an undeclared variable, the inner
Option is the stored value (none = nan). Index lookup models
data_lookup[var]. -/
def get_data (e : MicronEnsemble) (var : String) : Option (Option ℚ) :=
  if var ∈ micronEnsembleLabelList e.intensityLen then
    some (e.dataArray.getD
      ((micronEnsembleLabelList e.intensityLen).indexOf var) none)
  else none

/-- MicronEnsemble.set_data (MicronEnsemble.py lines 165-170); the outer
Option models the ValueError raised on an undeclared variable. -/
def set_data (e : MicronEnsemble) (var : String) (val : Option ℚ) :
    Option MicronEnsemble :=
  if var ∈ micronEnsembleLabelList e.intensityLen then
    some { e with
      dataArray := e.dataArray.set
        ((micronEnsembleLabelList e.intensityLen).indexOf var) val }
  else none

/-! ## MicronEnsemble.reorient_bearing -/

/-- MicronEnsemble.reorient_bearing (MicronEnsemble.py lines 288-312):
negate, wrap at -180 by adding 360, then optionally add the bearing bias. -/
def reorient_bearing (bearing_bias bearing_deg : ℚ) (bias : Bool) : ℚ :=
  let b := -bearing_deg
  let b2 := if b ≤ -180 then b + 360 else b
  if bias then b2 + bearing_bias else b2

/-! ## MicronEnsemble intensity filters -/

/-- Python truthiness of an optional float: None and 0.0 are falsy. This is
the test performed by `if (self.sonar_depth)` in filter_reflections. -/
def truthy : Option ℚ → Bool
  | none => false
  | some v => v != 0

/-- Inner function filter_at_dist (MicronEnsemble.py lines 328-331): zero
the intensity array from bin floor(dist / bin_size) on. (The source slices
the numpy array from intensity_index + bin_index; on the intensity segment
alone that is the suffix from bin_index. The claims only exercise
nonnegative distances, where the slice is exactly this suffix.) -/
def filter_at_dist (dist bin_size : ℚ) (bins : List ℚ) : List ℚ :=
  (List.range bins.length).map (fun (i : ℕ) =>
    if ((dist / bin_size ).floor ≤ (i : ℤ)) then 0 else bins.getD i 0)

/-- First if-block of filter_reflections (MicronEnsemble.py lines 334-337):
surface-reflection removal, gated on the truthiness of sonar_depth, an
incidence angle below 90 degrees, and cos_bear at least epsilon = 1e-3.
cos_bear stands for abs(np.cos(bearing_ref_world * deg_to_rad)). The
reflection factor is 1.5 = 3/2. -/
def filter_surface (sonar_depth : Option ℚ) (bearing_ref_world cos_bear
    bin_size : ℚ) (bins : List ℚ) : List ℚ :=
  if truthy sonar_depth = true ∧ |bearing_ref_world| < 90 ∧
      (1/1000 : ℚ) ≤ cos_bear then
    filter_at_dist (sonar_depth.getD 0 * (3/2) / cos_bear) bin_size bins
  else bins

/-- Second if-block of filter_reflections (MicronEnsemble.py lines 340-343):
bottom-reflection removal, gated on the truthiness of sonar_altitude and an
incidence angle above 90 degrees. -/
def filter_bottom (sonar_altitude : Option ℚ) (bearing_ref_world cos_bear
    bin_size : ℚ) (bins : List ℚ) : List ℚ :=
  if truthy sonar_altitude = true ∧ 90 < |bearing_ref_world| ∧
      (1/1000 : ℚ) ≤ cos_bear then
    filter_at_dist (sonar_altitude.getD 0 * (3/2) / cos_bear) bin_size bins
  else bins

/-- MicronEnsemble.filter_reflections (MicronEnsemble.py lines 322-343):
the surface block runs first, then the bottom block. -/
def filter_reflections (sonar_depth sonar_altitude : Option ℚ)
    (bearing_ref_world cos_bear bin_size : ℚ) (bins : List ℚ) : List ℚ :=
  filter_bottom sonar_altitude bearing_ref_world cos_bear bin_size
    (filter_surface sonar_depth bearing_ref_world cos_bear bin_size bins)

/-- MicronEnsemble.filter_blanking_distance (MicronEnsemble.py lines
315-319): zero the first ceil(0.35 / bin_size) intensity bins. (At
bin_size = 0 the source raises OverflowError, since math.ceil is applied
to an infinite ratio; that failure is modelled as the range_scale guard of
micronEnsembleDecode, so on decoded records this pure function is only
ever applied at a nonzero bin size.) -/
def filter_blanking_distance (bin_size : ℚ) (bins : List ℚ) : List ℚ :=
  (List.range bins.length).map (fun (i : ℕ) =>
    if ((i : ℤ) < ((7/20 : ℚ) / bin_size).ceil) then 0 else bins.getD i 0)

/-! ## MicronEnsemble.get_peak_width -/

/-- Insertion of one element into a sorted rational list. -/
def insort (x : ℚ) : List ℚ → List ℚ
  | [] => [x]
  | y :: ys => if x ≤ y then x :: y :: ys else y :: insort x ys

/-- Insertion sort on rationals, used to take medians. -/
def sortQ : List ℚ → List ℚ
  | [] => []
  | x :: xs => insort x (sortQ xs)

/-- Median of a window (middle element of the sorted window); for the fixed
window length five this is the third smallest value. -/
def medianQ (l : List ℚ) : ℚ := (sortQ l).getD (l.length / 2) 0

/-- Array access with an integer index, zero outside the array, used to
express the centered window sums of np.convolve. -/
def getZ (l : List ℚ) (j : ℤ) : ℚ :=
  if 0 ≤ j then l.getD j.toNat 0 else 0

/-- np.max of a nonempty array (0 on the empty array, which numpy rejects). -/
def maxQ : List ℚ → ℚ
  | [] => 0
  | x :: xs => xs.foldl max x

/-- Accumulator loop for np.argmax: strict improvement keeps the first
occurrence of the maximum. -/
def argmaxGo : List ℚ → ℕ → ℕ → ℚ → ℕ
  | [], _, bi, _ => bi
  | x :: xs, i, bi, bv =>
    if bv < x then argmaxGo xs (i + 1) i x else argmaxGo xs (i + 1) bi bv

/-- np.argmax: index of the first occurrence of the maximum (0 on the empty
array, which numpy rejects). -/
def argmaxQ : List ℚ → ℕ
  | [] => 0
  | x :: xs => argmaxGo xs 1 0 x

/-- bin_data.rolling(5, center=True).median().replace(nan, 0)
(MicronEnsemble.py lines 355-357): a centered rolling median with window
length roll_median_len = 5; positions without a full window are nan in
pandas and are then replaced by 0. -/
def bin_roll (bins : List ℚ) : List ℚ :=
  (List.range bins.length).map (fun i =>
    if 2 ≤ i ∧ i + 2 < bins.length then
      medianQ [bins.getD (i - 2) 0, bins.getD (i - 1) 0, bins.getD i 0,
               bins.getD (i + 1) 0, bins.getD (i + 2) 0]
    else 0)

/-- Thresholding of the rolling median at half of its maximum
(MicronEnsemble.py lines 361-363): entries below max/2 become 0, the rest
become 1. -/
def bin_threshold (bins : List ℚ) : List ℚ :=
  (bin_roll bins).map (fun v =>
    if maxQ (bin_roll bins) / 2 ≤ v then 1 else 0)

/-- np.convolve(bin_threshold, ones(5), mode=same) followed by re-binarizing
(MicronEnsemble.py lines 366-367): an entry of the closed array is 1 when
the centered window of length conv_kernel_len = 5 around it contains a 1. -/
def bin_closed (bins : List ℚ) : List ℚ :=
  (List.range (bin_threshold bins).length).map (fun (i : ℕ) =>
    if 0 < getZ (bin_threshold bins) ((i : ℤ) - 2) +
        getZ (bin_threshold bins) ((i : ℤ) - 1) +
        getZ (bin_threshold bins) (i : ℤ) +
        getZ (bin_threshold bins) ((i : ℤ) + 1) +
        getZ (bin_threshold bins) ((i : ℤ) + 2) then 1 else 0)

/-- First index holding 0, as an Option. -/
def findZero : List ℚ → Option ℕ
  | [] => none
  | x :: xs => if x = 0 then some 0 else (findZero xs).map (· + 1)

/-- np.argmax(arr == 0): index of the first zero, and 0 when the array has
no zero (np.argmax of an all-False array is 0). -/
def firstZeroIdx (l : List ℚ) : ℕ := (findZero l).getD 0

/-- MicronEnsemble.get_peak_width (MicronEnsemble.py lines 346-382). The
closed binary array is split at the argmax of the intensity array; an empty
left or right segment yields the (nan, nan) pair, modelled as none;
otherwise peak_start_bin is the length of the left segment minus the
backward distance to the first zero left of the maximum, and peak_end_bin
is the index of the first zero at or after the maximum. -/
def get_peak_width (bins : List ℚ) : Option (ℕ × ℕ) :=
  if ((bin_closed bins).take (argmaxQ bins)).length = 0 ∨
      ((bin_closed bins).drop (argmaxQ bins)).length = 0 then none
  else some
    (((bin_closed bins).take (argmaxQ bins)).length -
       firstZeroIdx (((bin_closed bins).take (argmaxQ bins)).reverse),
     firstZeroIdx ((bin_closed bins).drop (argmaxQ bins)) + argmaxQ bins)

/-! ## MicronEnsemble decode (the constructor MicronEnsemble.__init__) -/

/-- intensity_len = int(csv_row[header_vars.index(dbytes)])
(MicronEnsemble.py line 102): the declared sample count, read from token 14. -/
def micronEnsembleDbytes (row : List ℚ) : ℕ := (row.getD 14 0).floor.toNat

/-- Body of the constructor once the sizes are known: parse_header (with its
unit conversions and bearing reorientation), parse_intensity_bins (with the
blanking and reflection filters) and parse_derived_vars (MicronEnsemble.py
lines 116-121, 173-285). The data array is assembled in label_list order:
the fifteen header slots, the nineteen derived slots, then the intensity
bins. cosd abstracts np.cos composed with the degree-to-radian conversion.
This total function stands for the constructor body only on rows passing
the guard of micronEnsembleDecode; on other rows the source raises
mid-construction and no record exists. -/
def micronEnsembleRun (row : List ℚ) (n : ℕ) (year month day : ℤ)
    (bearing_bias : ℚ) (sonar_depth sonar_altitude : Option ℚ)
    (cosd : ℚ → ℚ) : MicronEnsemble :=
  -- header tokens other than line_header and date_time go through int()
  let raw : ℕ → ℚ := fun i => ((row.getD i 0).floor : ℚ)
  let date_time := row.getD 1 0
  let range_scale := raw 5 * (1/10)
  let ad_low := raw 8 * (80/255)
  let ad_span := raw 9 * (80/255)
  let left_lim := reorient_bearing bearing_bias (raw 10 * (360/6400)) false
  let right_lim := reorient_bearing bearing_bias (raw 11 * (360/6400)) false
  let steps := raw 12 * (360/6400)
  let bearing := reorient_bearing bearing_bias (raw 13 * (360/6400)) false
  let brw := reorient_bearing bearing_bias (raw 13 * (360/6400)) true
  let incidence_angle := |brw|
  let dbytes := raw 14
  let bin_size := range_scale / dbytes
  let bins0 := (List.range n).map (fun (i : ℕ) =>
    row.getD (15 + i) 0 * (80/255))
  let bins1 := filter_blanking_distance bin_size bins0
  let bins := filter_reflections sonar_depth sonar_altitude brw
    (|cosd brw|) bin_size bins1
  let max_intensity := maxQ bins
  let max_intensity_bin := argmaxQ bins
  let peak := get_peak_width bins
  let peak_start_bin : Option ℚ := peak.map (fun p => (p.1 : ℚ))
  let peak_end_bin : Option ℚ := peak.map (fun p => (p.2 : ℚ))
  let peak_width_bin : Option ℚ := peak.map (fun p => (p.2 : ℚ) - (p.1 : ℚ))
  let peak_start : Option ℚ := peak.map (fun p => (p.1 : ℚ) * bin_size)
  let peak_end : Option ℚ := peak.map (fun p => (p.2 : ℚ) * bin_size)
  let peak_width : Option ℚ :=
    peak.map (fun p => ((p.2 : ℚ) - (p.1 : ℚ)) * bin_size)
  let max_intensity_norm : Option ℚ :=
    peak_start.map (fun ps => max_intensity * ps)
  { intensityLen := n
    dataArray :=
      [some 1, some date_time, some (raw 2), some (raw 3), some (raw 4),
       some range_scale, some (raw 6), some (raw 7), some ad_low,
       some ad_span, some left_lim, some right_lim, some steps, some bearing,
       some dbytes] ++
      [some ((year : ℚ)), some ((month : ℚ)), some ((day : ℚ)), sonar_depth,
       sonar_altitude, some bearing_bias, some brw, some incidence_angle,
       some bin_size, some 34, some max_intensity,
       some ((max_intensity_bin : ℚ)), max_intensity_norm, peak_start_bin,
       peak_start, peak_end_bin, peak_end, peak_width_bin, peak_width] ++
      bins.map some }

/-- Construction of a MicronEnsemble from a raw token row
(MicronEnsemble.py lines 13-121). The none result models the exceptions
the constructor raises on numeric token rows:
- IndexError, when the row holds fewer than 15 header tokens or fewer than
  the declared number of intensity tokens;
- OverflowError (ValueError in the nan corner), when the range_scale token
  is 0: bin_size = range_scale / dbytes is then the numpy scalar 0.0 (or
  nan), and math.ceil(0.35 / bin_size) = ceil(inf) raises inside
  filter_blanking_distance (line 317);
- ValueError, when the declared sample count is not positive: the intensity
  slice is empty and np.max raises in parse_derived_vars (line 260).
There is no other failure path, and in particular no check of the declared
sample count against any fixed capacity. -/
def micronEnsembleDecode (row : List ℚ) (year month day : ℤ)
    (bearing_bias : ℚ) (sonar_depth sonar_altitude : Option ℚ)
    (cosd : ℚ → ℚ) : Option MicronEnsemble :=
  if 15 ≤ row.length ∧ 15 + micronEnsembleDbytes row ≤ row.length ∧
      (row.getD 5 0).floor ≠ 0 ∧ 1 ≤ micronEnsembleDbytes row then
    some (micronEnsembleRun row (micronEnsembleDbytes row) year month day
      bearing_bias sonar_depth sonar_altitude cosd)
  else none

/-! ## MicronTimeSeries.py: table operations -/

/-- Offset of the bearing column in the table schema (header slot 13). -/
def rowBearing (row : List ℚ) : ℚ := row.getD 13 0

/-- Offset of the bearing_ref_world column in the table schema
(header length 15 plus derived slot 6). -/
def rowBearingRefWorld (row : List ℚ) : ℚ := row.getD 21 0

/-- MicronTimeSeries.set_label_by_bearing (MicronTimeSeries.py lines
239-256). The guard raises ValueError (modelled none) only when var is not
in label_set, the set of ALL column names of the table schema; on success
the var column is overwritten with val in every row whose bearing column
lies in the window [bearing_min + pad, bearing_max - pad). -/
def set_label_by_bearing (df : List (List ℚ)) (var : String) (val : ℚ)
    (bearing_min bearing_max pad : ℚ) : Option (List (List ℚ)) :=
  if var ∈ micronSonarLabelList then
    some (df.map (fun row =>
      if bearing_min + pad ≤ rowBearing row ∧
          rowBearing row < bearing_max - pad then
        row.set (micronSonarLabelList.indexOf var) val
      else row))
  else none

/-- MicronTimeSeries.crop_on_bearing without the single-swath truncation
(MicronTimeSeries.py lines 294-300): an interval selection on the
bearing_ref_world column when right_angle > left_angle, otherwise the
wrap-around union of the two one-sided selections. -/
def crop_on_bearing (df : List (List ℚ)) (left_angle right_angle : ℚ) :
    List (List ℚ) :=
  if left_angle < right_angle then
    df.filter (fun row => decide (left_angle ≤ rowBearingRefWorld row ∧
      rowBearingRefWorld row ≤ right_angle))
  else
    df.filter (fun row => decide (left_angle ≤ rowBearingRefWorld row ∨
      rowBearingRefWorld row ≤ right_angle))

/-! ## Helper lemmas -/

theorem ratFloor_eq_intFloor (q : ℚ) : q.floor = ⌊q⌋ := rfl

theorem getD_set_self {α : Type} (l : List α) (i : ℕ) (a d : α)
    (h : i < l.length) : (l.set i a).getD i d = a := by
  rw [List.getD_eq_getElem?_getD, List.getElem?_set]
  simp [h]

theorem getD_set_ne {α : Type} (l : List α) {i j : ℕ} (a d : α)
    (h : i ≠ j) : (l.set i a).getD j d = l.getD j d := by
  rw [List.getD_eq_getElem?_getD, List.getElem?_set, if_neg h,
    List.getD_eq_getElem?_getD]

theorem getD_range_map (f : ℕ → ℚ) {n i : ℕ} (h : i < n) :
    ((List.range n).map f).getD i 0 = f i := by
  rw [List.getD_eq_getElem?_getD]
  simp [List.getElem?_map, List.getElem?_range, h]

theorem bin_ne_vertical_range (s : String) :
    ("bin_" ++ s) ≠ "vertical_range" := by
  intro h
  have h2 : ("bin_" ++ s).data = "vertical_range".data := congrArg String.data h
  rw [String.data_append] at h2
  have h3 : ("bin_" : String).data = ['b', 'i', 'n', '_'] := rfl
  have h4 : ("vertical_range" : String).data =
      ['v', 'e', 'r', 't', 'i', 'c', 'a', 'l', '_', 'r', 'a', 'n', 'g',
       'e'] := rfl
  rw [h3, h4] at h2
  injection h2 with h5 _
  exact absurd h5 (by decide)

theorem vertical_range_not_mem (n : ℕ) :
    "vertical_range" ∉ micronEnsembleLabelList n := by
  intro h
  rw [micronEnsembleLabelList, List.mem_append, List.mem_append] at h
  rcases h with (h | h) | h
  · exact absurd h (by decide)
  · exact absurd h (by decide)
  · rw [micronEnsembleIntensityVars, List.mem_map] at h
    obtain ⟨i, _, hi⟩ := h
    exact bin_ne_vertical_range (toString i) hi

theorem micronEnsembleLabelList_length (n : ℕ) :
    (micronEnsembleLabelList n).length = micronEnsembleSize n := by
  simp [micronEnsembleLabelList, micronEnsembleSize,
    micronEnsembleIntensityVars]
  omega

theorem micronSonarLabelList_length : micronSonarLabelList.length = 547 := by
  simp [micronSonarLabelList, micronSonarIntensityVars,
    micronSonarIntensityLen, micronSonarHeaderVars, micronSonarDerivedVars,
    micronSonarIceVars]

theorem argmaxGo_const (c : ℚ) :
    ∀ (m i bi : ℕ), argmaxGo (List.replicate m c) i bi c = bi := by
  intro m
  induction m with
  | zero => intro i bi; rfl
  | succ k ih =>
    intro i bi
    rw [List.replicate_succ, argmaxGo, if_neg (lt_irrefl c)]
    exact ih (i + 1) bi

theorem argmaxQ_replicate (n : ℕ) (c : ℚ) :
    argmaxQ (List.replicate n c) = 0 := by
  cases n with
  | zero => rfl
  | succ k => rw [List.replicate_succ, argmaxQ]; exact argmaxGo_const c k 1 0

theorem bin_closed_length (bins : List ℚ) :
    (bin_closed bins).length = bins.length := by
  simp only [bin_closed, bin_threshold, bin_roll, List.length_map,
    List.length_range]

theorem firstZeroIdx_of_length_one (l : List ℚ) (h : l.length = 1) :
    firstZeroIdx l = 0 := by
  match l, h with
  | [x], _ =>
    rw [firstZeroIdx, findZero]
    split
    · rfl
    · rfl

theorem micronEnsembleDecode_eq_some (row : List ℚ) (year month day : ℤ)
    (bearing_bias : ℚ) (sonar_depth sonar_altitude : Option ℚ)
    (cosd : ℚ → ℚ) (h1 : 15 ≤ row.length)
    (h2 : 15 + micronEnsembleDbytes row ≤ row.length)
    (h3 : (row.getD 5 0).floor ≠ 0)
    (h4 : 1 ≤ micronEnsembleDbytes row) :
    micronEnsembleDecode row year month day bearing_bias sonar_depth
      sonar_altitude cosd =
    some (micronEnsembleRun row (micronEnsembleDbytes row) year month day
      bearing_bias sonar_depth sonar_altitude cosd) := by
  rw [micronEnsembleDecode, if_pos ⟨h1, h2, h3, h4⟩]

/-! ## Claim theorems -/

/-- Claim C4, counterexample: reorienting a bearing of 200 degrees with no
bias does NOT yield -160 degrees (the code negates first and then adds 360,
giving +160). -/
theorem claim_C4_cex : reorient_bearing 0 200 false ≠ -160 := by
  norm_num [reorient_bearing]

/-- Claim C4, amended: reorienting 0 degrees with no bias yields 0;
reorienting 200 degrees with no bias yields +160 (the wrap correction fires
since -200 is at most -180); for every input angle and every bias value,
the biased variant equals the unbiased variant plus the bias, and the
unbiased variant is independent of the bias. -/
theorem claim_C4_thm :
    reorient_bearing 0 0 false = 0 ∧ reorient_bearing 0 200 false = 160 ∧
    ∀ (bias_deg x : ℚ),
      reorient_bearing bias_deg x true =
        reorient_bearing bias_deg x false + bias_deg ∧
      reorient_bearing bias_deg x false = reorient_bearing 0 x false := by
  refine ⟨by norm_num [reorient_bearing], by norm_num [reorient_bearing],
    fun bias_deg x => ⟨by simp [reorient_bearing], by simp [reorient_bearing]⟩⟩

/-- Claim C9, confirmed: a sonar_depth of 0 (and likewise a sonar_altitude
of 0) behaves exactly like None, because the reflection-filter gates test
Python truthiness; the corresponding filter stage leaves the intensity bins
unchanged. -/
theorem claim_C9_thm :
    ∀ (dep alt : Option ℚ) (brw cb bs : ℚ) (bins : List ℚ),
      filter_reflections (some 0) alt brw cb bs bins =
        filter_reflections none alt brw cb bs bins ∧
      filter_surface (some 0) brw cb bs bins = bins ∧
      filter_reflections dep (some 0) brw cb bs bins =
        filter_reflections dep none brw cb bs bins ∧
      filter_bottom (some 0) brw cb bs bins = bins := by
  intro dep alt brw cb bs bins
  refine ⟨?_, ?_, ?_, ?_⟩ <;>
    simp [filter_reflections, filter_surface, filter_bottom, truthy]

/-- Claim C7, counterexample: set_label_by_bearing called with the header
field bearing does NOT fail; it returns a table in which the bearing column
of the matching row has been overwritten with the label value 7. -/
theorem claim_C7_cex :
    (set_label_by_bearing [List.replicate 547 (0 : ℚ)] "bearing" 7 (-1) 1
      0).isSome = true ∧
    Option.map (fun d => (d.headD []).getD 13 0)
      (set_label_by_bearing [List.replicate 547 (0 : ℚ)] "bearing" 7 (-1) 1
        0) = some 7 := by
  have hmem : "bearing" ∈ micronSonarLabelList := by decide
  have hcond : (-1 : ℚ) + 0 ≤ rowBearing (List.replicate 547 (0 : ℚ)) ∧
      rowBearing (List.replicate 547 (0 : ℚ)) < 1 - 0 := by
    rw [rowBearing]
    norm_num
  constructor
  · rw [set_label_by_bearing, if_pos hmem]
    rfl
  · rw [set_label_by_bearing, if_pos hmem]
    simp only [List.map_cons, List.map_nil, if_pos hcond, Option.map_some']
    have hix : micronSonarLabelList.indexOf "bearing" = 13 := by decide
    rw [hix]
    simp only [List.headD_cons]
    rw [getD_set_self]
    rw [List.length_replicate]
    norm_num

/-- Claim C7, amended: set_label_by_bearing validates the field against the
set of ALL declared column names of the table schema, not against the label
fields alone; it fails exactly when the field is not a declared column, and
it accepts (and overwrites) any declared column, including the header field
bearing, which is a declared column but not one of the thirteen
classification or label fields. -/
theorem claim_C7_thm :
    (∀ (df : List (List ℚ)) (var : String) (val bmin bmax pad : ℚ),
      (set_label_by_bearing df var val bmin bmax pad).isSome = true ↔
        var ∈ micronSonarLabelList) ∧
    "bearing" ∈ micronSonarLabelList ∧ "bearing" ∉ micronSonarIceVars := by
  refine ⟨?_, by decide, by decide⟩
  intro df var val bmin bmax pad
  by_cases h : var ∈ micronSonarLabelList <;>
    simp [set_label_by_bearing, h]

/-- Claim C1 (a code bug): at the failing input dbytes = 400, the decoded
record has 15 + 19 + 400 = 434 slots while the table schema that
MicronTimeSeries.to_dataframe stacks records against has 547 columns; the
per-record name list differs between records with different dbytes, and the
intensity capacity of a record is its dbytes, not the fixed 500 of the
table schema. -/
theorem claim_C1_thm :
    micronEnsembleSize 400 = 434 ∧ micronSonarLabelList.length = 547 ∧
    micronEnsembleLabelList 400 ≠ micronEnsembleLabelList 450 ∧
    (micronEnsembleIntensityVars 400).length ≠ micronSonarIntensityLen := by
  refine ⟨rfl, micronSonarLabelList_length, ?_, ?_⟩
  · intro h
    have h2 := congrArg List.length h
    rw [micronEnsembleLabelList_length, micronEnsembleLabelList_length] at h2
    simp [micronEnsembleSize] at h2
  · rw [micronEnsembleIntensityVars, List.length_map, List.length_range,
      micronSonarIntensityLen]
    norm_num

/-- Claim C10, confirmed: for every declared field name of a record whose
data array has the declared record length, set_data followed by get_data on
the same name returns the value just written, and set_data leaves every
offset other than data_lookup[var] unchanged. -/
theorem claim_C10_thm :
    ∀ (e : MicronEnsemble) (var : String) (val : Option ℚ),
      var ∈ micronEnsembleLabelList e.intensityLen →
      e.dataArray.length = micronEnsembleSize e.intensityLen →
      ((set_data e var val).bind (fun e2 => get_data e2 var) =
          some val ∧
        ∀ j : ℕ, j ≠ (micronEnsembleLabelList e.intensityLen).indexOf var →
          (set_data e var val).map (fun e2 => e2.dataArray.getD j none) =
            some (e.dataArray.getD j none)) := by
  intro e var val hmem hlen
  have hidx : (micronEnsembleLabelList e.intensityLen).indexOf var <
      e.dataArray.length := by
    rw [hlen, ← micronEnsembleLabelList_length]
    exact List.indexOf_lt_length.mpr hmem
  constructor
  · rw [set_data, if_pos hmem]
    simp only [Option.bind_some, Option.some_bind]
    rw [get_data]
    simp only
    rw [if_pos hmem, getD_set_self _ _ _ _ hidx]
  · intro j hj
    rw [set_data, if_pos hmem]
    simp only [Option.map_some']
    rw [getD_set_ne _ _ _ (Ne.symm hj)]

/-- Claim C10, witness: on a record with dbytes = 2 and a zeroed data array
of the declared size 36, writing 7 to the header field node and reading it
back returns 7, and offset 0 is unchanged. -/
theorem claim_C10_wit :
    ((set_data ⟨2, List.replicate 36 none⟩ "node" (some 7)).bind
      (fun e2 => get_data e2 "node") = some (some 7)) ∧
    (set_data ⟨2, List.replicate 36 none⟩ "node" (some 7)).map
      (fun e2 => e2.dataArray.getD 0 none) = some none := by
  have h := claim_C10_thm ⟨2, List.replicate 36 none⟩ "node" (some 7)
    (by decide) (by decide)
  exact ⟨h.1, h.2 0 (by decide)⟩

/-- Claim C3, counterexample: on an all-zero intensity array the code does
not return a zero-width peak with peak_start_bin equal to peak_end_bin; the
argmax is bin 0, the left segment is empty, and get_peak_width returns the
(nan, nan) pair, modelled none. Under float semantics nan compares unequal
to nan and the width nan - nan is nan, so the claimed equality and the
claimed zero width both fail (though indeed nothing is raised). -/
theorem claim_C3_cex : get_peak_width (List.replicate 8 (0 : ℚ)) = none := by
  have h : argmaxQ (List.replicate 8 (0 : ℚ)) = 0 := argmaxQ_replicate 8 0
  rw [get_peak_width, h]
  simp

/-- Claim C3, amended: an all-zero intensity array, and more generally any
array whose maximum-intensity bin is bin 0, yields the (nan, nan) pair
(modelled none) for peak_start_bin and peak_end_bin, without raising; an
array of at least two bins whose maximum-intensity bin is the last bin
yields peak_end_bin equal to the last index. -/
theorem claim_C3_thm :
    (∀ n : ℕ, 0 < n → get_peak_width (List.replicate n 0) = none) ∧
    (∀ bins : List ℚ, 0 < bins.length → argmaxQ bins = 0 →
      get_peak_width bins = none) ∧
    (∀ bins : List ℚ, 2 ≤ bins.length →
      argmaxQ bins = bins.length - 1 →
      (get_peak_width bins).map Prod.snd = some (bins.length - 1)) := by
  have key : ∀ bins : List ℚ, argmaxQ bins = 0 →
      get_peak_width bins = none := by
    intro bins h
    rw [get_peak_width, h]
    simp
  refine ⟨fun n _ => key _ (argmaxQ_replicate n 0),
    fun bins _ h => key bins h, ?_⟩
  intro bins h2 h
  have hlen : (bin_closed bins).length = bins.length := bin_closed_length bins
  have hTake : ((bin_closed bins).take (bins.length - 1)).length =
      bins.length - 1 := by
    rw [List.length_take, hlen]
    omega
  have hDrop : ((bin_closed bins).drop (bins.length - 1)).length = 1 := by
    rw [List.length_drop, hlen]
    omega
  rw [get_peak_width, h, if_neg]
  · simp only [Option.map_some']
    rw [firstZeroIdx_of_length_one _ hDrop]
    simp
  · push_neg
    constructor
    · rw [hTake]; omega
    · rw [hDrop]; omega

/-- Claim C3, witness: a four-bin all-zero array yields the nan pair, and a
four-bin array with its maximum at the last bin yields peak_end_bin 3. -/
theorem claim_C3_wit :
    get_peak_width (List.replicate 4 (0 : ℚ)) = none ∧
    (get_peak_width [(1 : ℚ), 1, 1, 9]).map Prod.snd = some 3 := by
  refine ⟨claim_C3_thm.1 4 (by norm_num), ?_⟩
  have h := claim_C3_thm.2.2 [(1 : ℚ), 1, 1, 9] (by norm_num) (by decide)
  simpa using h

/-- Claim C6, counterexample: a record decoded with sonar_depth 0 (a value
that is not None) meets the stated geometric conditions, yet the filter
does not fire although the claimed cutoff distance is 0 * 1.5 / 1 = 0: the
single bin, which extends beyond that cutoff, keeps its value 5 instead of
becoming 0, because the gate tests Python truthiness and 0.0 is falsy. -/
theorem claim_C6_cex :
    filter_reflections (some 0) none 0 1 1 [5] = [5] ∧
    filter_reflections (some 0) none 0 1 1 [5] ≠ [0] := by
  have h : filter_reflections (some 0) none 0 1 1 [5] = [5] := by
    simp [filter_reflections, filter_surface, filter_bottom, truthy]
  refine ⟨h, ?_⟩
  rw [h]
  intro h2
  have h3 := List.head_eq_of_cons_eq h2
  norm_num at h3

/-- Claim C6, amended: for a record whose sonar_depth is a POSITIVE value d
(0 is falsy and behaves like None), with incidence angle below 90 degrees
and cos_bear at least epsilon, every intensity bin whose index is at least
floor((d * 1.5 / cos_bear) / bin_size) -- the bins lying beyond the cutoff
distance d * 1.5 / cos_bear -- is exactly 0, and every earlier bin keeps
its pre-filter value; with sonar_depth None the surface stage never alters
the bins, regardless of geometry. -/
theorem claim_C6_thm :
    ∀ (d : ℚ) (alt : Option ℚ) (brw cb bs : ℚ) (bins : List ℚ),
      0 < d → |brw| < 90 → (1/1000 : ℚ) ≤ cb →
      ((∀ i : ℕ, i < bins.length →
          (filter_reflections (some d) alt brw cb bs bins).getD i 0 =
            if (d * (3/2) / cb / bs).floor ≤ (i : ℤ) then 0
            else bins.getD i 0) ∧
        ∀ (brw2 cb2 bs2 : ℚ) (bins2 : List ℚ),
          filter_surface none brw2 cb2 bs2 bins2 = bins2) := by
  intro d alt brw cb bs bins hd hb hc
  constructor
  · intro i hi
    have hsurf : filter_surface (some d) brw cb bs bins =
        filter_at_dist (d * (3/2) / cb) bs bins := by
      rw [filter_surface, if_pos]
      · simp
      · refine ⟨?_, hb, hc⟩
        simp [truthy]
        exact ne_of_gt hd
    rw [filter_reflections, hsurf, filter_bottom, if_neg]
    · rw [filter_at_dist, getD_range_map _ hi]
    · intro hcontra
      exact absurd hcontra.2.1 (not_lt.mpr (le_of_lt hb))
  · intro brw2 cb2 bs2 bins2
    simp [filter_surface, truthy]

/-- Claim C6, witness: depth 1, bearing 0, cos_bear 1, bin size 1, two bins
of value 5; the cutoff bin is floor(1.5) = 1, so bin 0 keeps its value and
bin 1 becomes 0. -/
theorem claim_C6_wit :
    (filter_reflections (some 1) none 0 1 1 [5, 5]).getD 0 0 = 5 ∧
    (filter_reflections (some 1) none 0 1 1 [5, 5]).getD 1 0 = 0 := by
  have h := claim_C6_thm 1 none 0 1 1 [5, 5] (by norm_num) (by norm_num)
    (by norm_num)
  constructor
  · have h0 := h.1 0 (by norm_num)
    rw [h0, ratFloor_eq_intFloor]
    norm_num
  · have h1 := h.1 1 (by norm_num)
    rw [h1, ratFloor_eq_intFloor]
    norm_num

set_option maxRecDepth 4000 in
/-- Claim C2, counterexample: a decodable raw token row (range_scale token
100, so the blanking filter does not raise) declaring dbytes = 501, above
the fixed intensity capacity 500 of the table schema, is decoded without
any error; the constructor silently accepts it and sizes the record at 501
intensity bins (the source has no SchemaViolation or range check at all). -/
theorem claim_C2_cex :
    (micronEnsembleDecode (List.replicate 5 0 ++ [100] ++
        List.replicate 8 0 ++ [501] ++ List.replicate 501 0) 2020 1 1 0
        none none (fun _ => 1)).isSome = true ∧
    Option.map MicronEnsemble.intensityLen
      (micronEnsembleDecode (List.replicate 5 0 ++ [100] ++
        List.replicate 8 0 ++ [501] ++ List.replicate 501 0) 2020 1 1 0
        none none (fun _ => 1)) = some 501 := by
  rw [micronEnsembleDecode_eq_some _ 2020 1 1 0 none none _ (by decide)
    (by decide) (by decide) (by decide)]
  exact ⟨rfl, rfl⟩

/-- Claim C2, amended: the constructor performs no capacity check at all:
decoding succeeds precisely when the row carries at least 15 header tokens
and the declared number of intensity tokens, the range_scale token is
nonzero, and the declared sample count is positive -- and then, whatever
that count is (501 included), the record gets exactly that many intensity
bins. The failure paths are the short row (IndexError), a zero range_scale
token (bin size 0, so the blanking filter applies ceil to an infinite
ratio and raises OverflowError), and a non-positive sample count (np.max
of the empty intensity slice raises ValueError) -- never a SchemaViolation
or any range check of dbytes against the fixed capacity. -/
theorem claim_C2_thm :
    ∀ (row : List ℚ) (year month day : ℤ) (bearing_bias : ℚ)
      (sonar_depth sonar_altitude : Option ℚ) (cosd : ℚ → ℚ),
      ((micronEnsembleDecode row year month day bearing_bias sonar_depth
          sonar_altitude cosd).isSome = true ↔
        (15 ≤ row.length ∧ 15 + micronEnsembleDbytes row ≤ row.length ∧
          (row.getD 5 0).floor ≠ 0 ∧ 1 ≤ micronEnsembleDbytes row)) ∧
      (15 ≤ row.length → 15 + micronEnsembleDbytes row ≤ row.length →
        (row.getD 5 0).floor ≠ 0 → 1 ≤ micronEnsembleDbytes row →
        Option.map MicronEnsemble.intensityLen
          (micronEnsembleDecode row year month day bearing_bias sonar_depth
            sonar_altitude cosd) = some (micronEnsembleDbytes row)) := by
  intro row y m d bb dep alt cosd
  constructor
  · rw [micronEnsembleDecode]
    split
    · next h => simp only [Option.isSome_some]; exact iff_of_true trivial h
    · next h => simp only [Option.isSome_none]; exact iff_of_false (by decide) h
  · intro h1 h2 h3 h4
    rw [micronEnsembleDecode_eq_some row y m d bb dep alt cosd h1 h2 h3 h4]
    rfl

/-- Claim C2, witness: a decodable row (range_scale token 100, dbytes = 3,
exactly 15 + 3 tokens) decodes to a record with 3 intensity bins. -/
theorem claim_C2_wit :
    (micronEnsembleDecode (List.replicate 5 0 ++ [100] ++
        List.replicate 8 0 ++ [3] ++ List.replicate 3 0) 2020 1 1 0 none
        none (fun _ => 1)).isSome = true ∧
    Option.map MicronEnsemble.intensityLen
      (micronEnsembleDecode (List.replicate 5 0 ++ [100] ++
        List.replicate 8 0 ++ [3] ++ List.replicate 3 0) 2020 1 1 0 none
        none (fun _ => 1)) =
      some (micronEnsembleDbytes (List.replicate 5 0 ++ [100] ++
        List.replicate 8 0 ++ [3] ++ List.replicate 3 0)) := by
  constructor
  · exact (claim_C2_thm _ 2020 1 1 0 none none (fun _ => 1)).1.mpr
      ⟨by decide, by decide, by decide, by decide⟩
  · exact (claim_C2_thm _ 2020 1 1 0 none none (fun _ => 1)).2
      (by decide) (by decide) (by decide) (by decide)

/-- Claim C5, counterexample: a decodable row (range_scale token 100,
dbytes = 2) decodes successfully, and the resulting record has no
vertical_range field at all; get_data on that name raises (modelled the
inner none), so no decoded record sets vertical_range to anything. -/
theorem claim_C5_cex :
    Option.map (fun e => get_data e "vertical_range")
      (micronEnsembleDecode (List.replicate 5 0 ++ [100] ++
        List.replicate 8 0 ++ [2] ++ List.replicate 2 0) 2020 1 1 0 none
        none (fun _ => 1)) = some none := by
  rw [micronEnsembleDecode_eq_some _ 2020 1 1 0 none none _ (by decide)
    (by decide) (by decide) (by decide), Option.map_some']
  rw [get_data, if_neg (vertical_range_not_mem _)]

/-- Claim C5, amended: no decoded record carries a vertical_range field:
the name is absent from the per-record label list for every dbytes (it
exists only in the table schema of MicronSonar, where nothing ever assigns
it), so get_data fails on it for every decoded record and the decoder
computes no such projection. -/
theorem claim_C5_thm :
    ∀ (row : List ℚ) (year month day : ℤ) (bearing_bias : ℚ)
      (sonar_depth sonar_altitude : Option ℚ) (cosd : ℚ → ℚ)
      (e : MicronEnsemble),
      micronEnsembleDecode row year month day bearing_bias sonar_depth
        sonar_altitude cosd = some e →
      get_data e "vertical_range" = none := by
  intro row y m d bb dep alt cosd e _
  rw [get_data, if_neg (vertical_range_not_mem e.intensityLen)]

/-- Claim C5, witness: the amended statement applied to the record decoded
from a decodable row (range_scale token 100, dbytes = 4). -/
theorem claim_C5_wit :
    get_data (micronEnsembleRun
      (List.replicate 5 0 ++ [100] ++ List.replicate 8 0 ++ [4] ++
        List.replicate 4 0)
      (micronEnsembleDbytes (List.replicate 5 0 ++ [100] ++
        List.replicate 8 0 ++ [4] ++ List.replicate 4 0))
      2020 1 1 0 none none (fun _ => 1)) "vertical_range" = none :=
  claim_C5_thm (List.replicate 5 0 ++ [100] ++ List.replicate 8 0 ++
    [4] ++ List.replicate 4 0) 2020 1 1 0 none none (fun _ => 1) _
    (micronEnsembleDecode_eq_some _ 2020 1 1 0 none none _ (by decide)
      (by decide) (by decide) (by decide))

/-- Claim C8, counterexample: a table with one row whose world-referenced
bearing is 190 (reachable: device bearing 180 degrees with bearing bias
+10 gives bearing_ref_world 190) loses that row under
crop_on_bearing(-180, 180), so the claimed identity crop does not preserve
the row count of every source table. -/
theorem claim_C8_cex :
    crop_on_bearing [(List.replicate 547 (0 : ℚ)).set 21 190] (-180) 180 =
      [] ∧
    ([(List.replicate 547 (0 : ℚ)).set 21 190] : List (List ℚ)).length =
      1 := by
  have hb : rowBearingRefWorld ((List.replicate 547 (0 : ℚ)).set 21 190) =
      190 := by
    rw [rowBearingRefWorld, getD_set_self]
    rw [List.length_replicate]
    norm_num
  constructor
  · rw [crop_on_bearing, if_pos (by norm_num : (-180 : ℚ) < 180)]
    have hcond : ¬((-180 : ℚ) ≤
        rowBearingRefWorld ((List.replicate 547 (0 : ℚ)).set 21 190) ∧
        rowBearingRefWorld ((List.replicate 547 (0 : ℚ)).set 21 190) ≤
          180) := by
      rw [hb]
      norm_num
    simp only [List.filter_cons, decide_eq_false hcond, Bool.false_eq_true,
      if_false, List.filter_nil]
  · rfl

/-- Claim C8, amended: crop_on_bearing keeps exactly the rows satisfying
the bearing predicate of the selected branch: for right > left the interval
left <= bearing_ref_world <= right (so crop(-180, 180) preserves a table
exactly when every bearing lies in [-180, 180], as with zero bearing bias;
a biased record can lie outside and is then dropped), and otherwise the
wrap-around disjunction, so crop(170, -170) selects exactly the rows with
bearing at least 170 or at most -170. -/
theorem claim_C8_thm :
    ∀ (df : List (List ℚ)),
      ((∀ row ∈ df, -180 ≤ rowBearingRefWorld row ∧
          rowBearingRefWorld row ≤ 180) →
        crop_on_bearing df (-180) 180 = df) ∧
      (∀ row : List ℚ, row ∈ crop_on_bearing df 170 (-170) ↔
        row ∈ df ∧ (170 ≤ rowBearingRefWorld row ∨
          rowBearingRefWorld row ≤ -170)) ∧
      (∀ (l r : ℚ), l < r → ∀ row : List ℚ,
        row ∈ crop_on_bearing df l r ↔
          row ∈ df ∧ (l ≤ rowBearingRefWorld row ∧
            rowBearingRefWorld row ≤ r)) := by
  intro df
  refine ⟨?_, ?_, ?_⟩
  · intro hball
    rw [crop_on_bearing, if_pos (by norm_num : (-180 : ℚ) < 180)]
    apply List.filter_eq_self.mpr
    intro row hrow
    exact decide_eq_true (hball row hrow)
  · intro row
    rw [crop_on_bearing, if_neg (by norm_num : ¬(170 : ℚ) < -170)]
    rw [List.mem_filter]
    simp
  · intro l r hlr row
    rw [crop_on_bearing, if_pos hlr, List.mem_filter]
    simp

/-- Claim C8, witness: a one-row table whose bearing column holds 0 is
preserved whole by the identity crop. -/
theorem claim_C8_wit :
    crop_on_bearing [List.replicate 547 (0 : ℚ)] (-180) 180 =
      [List.replicate 547 (0 : ℚ)] := by
  apply (claim_C8_thm [List.replicate 547 (0 : ℚ)]).1
  intro row hrow
  rw [List.mem_singleton] at hrow
  subst hrow
  have hz : rowBearingRefWorld (List.replicate 547 (0 : ℚ)) = 0 := rfl
  rw [hz]
  norm_num
